import Mathlib

/-!
Verification development for the ServerMonitor cluster dashboard.

The embedding covers the two source files:
* `src/utils/numberFormat.ts` — the metrics normalizer (`formatNumber`,
  `formatTemperature`, `formatServerData`);
* `src/app/cluster/page.tsx` — the poll/aggregate loop (`fetchServerData`),
  the per-host network history ring buffer (`updateNetworkHistory`,
  `cleanupNetworkHistory`) and the zero-versus-missing display helpers
  (`getTemperatureDisplay`, `getFanSpeed`).

JavaScript numbers are modelled as exact rationals (`ℚ`); `toFixed(2)`
followed by `Number(...)` is modelled after the ECMAScript definition of
`Number.prototype.toFixed`: the result is `n / 100` for the integer `n`
closest to `100 * x`, ties resolved toward the larger `n`, which is
`⌊100 * x + 1/2⌋`.
-/

namespace ServerMonitor

namespace NumberFormat

/-- Runtime JavaScript value reaching a temperature field: a number, a string,
`null`, or `undefined` (the value read from an absent object property). -/
inductive JsVal where
  | num (q : ℚ)
  | str (s : String)
  | null
  | undefined
deriving DecidableEq

/-- Embedding of `formatNumber` in `numberFormat.ts`:
`Number(num.toFixed(2))`, i.e. rounding to the nearest hundredth with ties
toward the larger candidate, per the ECMAScript `toFixed` algorithm; the
resulting integer of hundredths is `⌊num * 100 + 1/2⌋`, written with
`Rat.floor` to keep the definition executable. -/
def formatNumber (num : ℚ) : ℚ :=
  (((num * 100 + 1 / 2).floor : ℤ) : ℚ) / 100

/-- Embedding of `formatTemperature` in `numberFormat.ts`. The source first
tests `temp === 'N/A'` and otherwise calls `temp.toFixed(2)`; calling
`toFixed` on `undefined`, `null` or any non-`'N/A'` string throws a
`TypeError` at runtime, modelled as `Except.error`. -/
def formatTemperature : JsVal → Except String JsVal
  | .num q => .ok (.num (formatNumber q))
  | .str s => if s = "N/A" then .ok (.str "N/A") else .error "TypeError"
  | .null => .error "TypeError"
  | .undefined => .error "TypeError"

/-- The raw `temperature` object of an incoming payload, seen as JavaScript
sees it at runtime: each of the five sensor properties read by
`formatServerData` yields a `JsVal`, with `JsVal.undefined` for an absent
property. An unknown third shape is any assignment outside the two
documented variants. -/
structure TemperatureObj where
  cpu : JsVal
  gpu : JsVal
  motherboard : JsVal
  rp1 : JsVal
  ssd : JsVal
deriving DecidableEq

/-- Modelled from the spec: the type guard `isX86TemperatureInfo` is declared
in `src/types/system.ts`, which is not among the provided sources. The spec
says the variant is selected by field presence: the set
`{cpu, gpu, motherboard}` present selects the x86 variant. A property is
present when reading it does not yield `undefined`. -/
def isX86TemperatureInfo (t : TemperatureObj) : Bool :=
  t.cpu ≠ JsVal.undefined && t.gpu ≠ JsVal.undefined
    && t.motherboard ≠ JsVal.undefined

/-- The x86 temperature variant of `types/system` (fields after
formatting, so `number | 'N/A'` values). -/
structure X86TemperatureInfo where
  cpu : JsVal
  gpu : JsVal
  motherboard : JsVal
deriving DecidableEq

/-- The ARM temperature variant of `types/system`. -/
structure ARMTemperatureInfo where
  cpu : JsVal
  rp1 : JsVal
  ssd : JsVal
deriving DecidableEq

/-- The union `X86TemperatureInfo | ARMTemperatureInfo`. -/
inductive TemperatureInfo where
  | x86 (t : X86TemperatureInfo)
  | arm (t : ARMTemperatureInfo)
deriving DecidableEq

/-- The `cpu` block of `ServerData` as read by `formatServerData`. -/
structure CpuInfo where
  usage : ℚ
  cores : ℚ
  temperature : JsVal
deriving DecidableEq

/-- The `memory` block: `used`, `total`, `percentage`. -/
structure MemoryInfo where
  used : ℚ
  total : ℚ
  percentage : ℚ
deriving DecidableEq

/-- The `disk` block: `used`, `total`, `percentage`. -/
structure DiskInfo where
  used : ℚ
  total : ℚ
  percentage : ℚ
deriving DecidableEq

/-- The nested `network.errorRates` object (percent strings). -/
structure NetworkErrorRates where
  rx : String
  tx : String
deriving DecidableEq

/-- The `network` block: `download`, `upload`, `ping`, `errorRates`. -/
structure NetworkInfo where
  download : ℚ
  upload : ℚ
  ping : ℚ
  errorRates : NetworkErrorRates
deriving DecidableEq

/-- The `uptime` block: `days`, `hours`, `minutes`. -/
structure UptimeInfo where
  days : ℚ
  hours : ℚ
  minutes : ℚ
deriving DecidableEq

/-- The `fan` block: `cpu`, `case1`, `case2` in RPM. -/
structure FanInfo where
  cpu : ℚ
  case1 : ℚ
  case2 : ℚ
deriving DecidableEq

/-- One entry of `processes`. -/
structure Process where
  name : String
  cpu : ℚ
  memory : ℚ
deriving DecidableEq

/-- The inbound `ServerData` payload as consumed by `formatServerData`,
with the runtime (possibly malformed) temperature object. -/
structure ServerData where
  cpu : CpuInfo
  memory : MemoryInfo
  disk : DiskInfo
  network : NetworkInfo
  uptime : UptimeInfo
  temperature : TemperatureObj
  fan : FanInfo
  processes : List Process
deriving DecidableEq

/-- The value `formatServerData` builds: identical to `ServerData` except
that the temperature object has been resolved to one of the two variants. -/
structure FormattedServerData where
  cpu : CpuInfo
  memory : MemoryInfo
  disk : DiskInfo
  network : NetworkInfo
  uptime : UptimeInfo
  temperature : TemperatureInfo
  fan : FanInfo
  processes : List Process
deriving DecidableEq

/-- The `temperature` field expression of `formatServerData` (lines 61-69 of
`numberFormat.ts`): the guard picks the variant, then each selected sensor
property is passed through `formatTemperature` in source order, the first
thrown `TypeError` aborting the construction. -/
def formatTemperatureVariant (t : TemperatureObj) : Except String TemperatureInfo :=
  if isX86TemperatureInfo t then do
    let c ← formatTemperature t.cpu
    let g ← formatTemperature t.gpu
    let m ← formatTemperature t.motherboard
    pure (TemperatureInfo.x86 ⟨c, g, m⟩)
  else do
    let c ← formatTemperature t.cpu
    let r ← formatTemperature t.rp1
    let s ← formatTemperature t.ssd
    pure (TemperatureInfo.arm ⟨c, r, s⟩)

/-- Embedding of `formatServerData` in `numberFormat.ts`. The object literal
evaluates its fields in source order, so the first `formatTemperature` call
that throws aborts the whole construction; a thrown `TypeError` is the
`Except.error` case. All calls that only involve `formatNumber` on numbers
are total and cannot throw, so the two fallible field computations are
`cpu.temperature` and the temperature variant, in that order. -/
def formatServerData (data : ServerData) : Except String FormattedServerData := do
  let cpuTemp ← formatTemperature data.cpu.temperature
  let temp ← formatTemperatureVariant data.temperature
  pure
    { cpu :=
        { usage := formatNumber data.cpu.usage
          cores := data.cpu.cores
          temperature := cpuTemp }
      memory :=
        { used := formatNumber data.memory.used
          total := data.memory.total
          percentage := formatNumber data.memory.percentage }
      disk :=
        { used := formatNumber data.disk.used
          total := data.disk.total
          percentage := formatNumber data.disk.percentage }
      network :=
        { download := formatNumber data.network.download
          upload := formatNumber data.network.upload
          ping := formatNumber data.network.ping
          errorRates :=
            { rx := data.network.errorRates.rx
              tx := data.network.errorRates.tx } }
      uptime :=
        { days := data.uptime.days
          hours := data.uptime.hours
          minutes := data.uptime.minutes }
      temperature := temp
      fan :=
        { cpu := formatNumber data.fan.cpu
          case1 := formatNumber data.fan.case1
          case2 := formatNumber data.fan.case2 }
      processes := data.processes.map fun p =>
        { p with cpu := formatNumber p.cpu, memory := formatNumber p.memory } }

end NumberFormat

namespace ClusterPage

/-- The `Server` descriptor of `cluster/page.tsx`; `type` is the string
literal union `'intel' | 'rpi'` modelled as a string. -/
structure Server where
  name : String
  ip : String
  type : String
deriving DecidableEq

/-- The compiled-in server list of `cluster/page.tsx`. -/
def servers : List Server :=
  [ ⟨"RuthServer", "ruthcloud.xyz", "intel"⟩
  , ⟨"RuthPiMaster", "cluster0.ruthcloud.xyz", "rpi"⟩
  , ⟨"RuthPiNode1", "cluster1.ruthcloud.xyz", "rpi"⟩
  , ⟨"RuthPiNode2", "cluster2.ruthcloud.xyz", "rpi"⟩ ]

/-- The `Uptime` interface. -/
structure Uptime where
  days : ℚ
  hours : ℚ
  minutes : ℚ
deriving DecidableEq

/-- The `Memory` interface. -/
structure Memory where
  used : ℚ
  total : ℚ
  percentage : ℚ
deriving DecidableEq

/-- The `Disk` interface. -/
structure Disk where
  used : ℚ
  total : ℚ
  percentage : ℚ
deriving DecidableEq

/-- The nested error-rate strings of `NetworkData`. -/
structure ErrorRates where
  rx : String
  tx : String
deriving DecidableEq

/-- The `NetworkData` interface. -/
structure NetworkData where
  ping : ℚ
  download : ℚ
  upload : ℚ
  errorRates : ErrorRates
deriving DecidableEq

/-- The `Temperature` interface of `cluster/page.tsx`: every sensor field is
optional, `none` modelling an absent (`undefined`) property. -/
structure Temperature where
  cpu : Option ℚ
  rp1 : Option ℚ
  ssd : Option ℚ
deriving DecidableEq

/-- The `Fan` interface. -/
structure Fan where
  cpu : ℚ
  case1 : ℚ
  case2 : ℚ
deriving DecidableEq

/-- The `Process` interface of `cluster/page.tsx` (only `name` is typed). -/
structure Process where
  name : String
deriving DecidableEq

/-- The `ServerData` interface of `cluster/page.tsx`: every block is
optional, and error markers carry only the `error` string. This is the type
of the values stored in the `serversData` state map. -/
structure ServerData where
  cpu : Option (ℚ × ℚ) := none
  memory : Option Memory := none
  disk : Option Disk := none
  network : Option NetworkData := none
  temperature : Option Temperature := none
  fan : Option Fan := none
  uptime : Option Uptime := none
  processes : Option (List Process) := none
  error : Option String := none
deriving DecidableEq

/-- The `serversData` state map; a JavaScript object keyed by server ip,
an absent key reading as `undefined` (`none`). -/
abbrev ServersData := String → Option ServerData

/-- The empty `newData` object each poll round starts from. -/
def emptyData : ServersData := fun _ => none

/-- Assignment `newData[ip] = v` on the state map. -/
def setEntry (d : ServersData) (ip : String) (v : ServerData) : ServersData :=
  fun k => if k = ip then some v else d k

/-- One entry of a host's network history. -/
structure NetworkHistoryEntry where
  time : String
  download : ℚ
  upload : ℚ
deriving DecidableEq

/-- The `networkHistory` state map; `prev[serverIp] || []` makes an absent
key read as the empty history, so the map is modelled as a total function
into lists. -/
abbrev NetworkHistory := String → List NetworkHistoryEntry

/-- The initial empty history map. -/
def emptyHistory : NetworkHistory := fun _ => []

/-- JavaScript `arr.slice(-n)`: the suffix of the most recent `n` elements
(the whole array when it is shorter than `n`). -/
def sliceLast (n : Nat) (l : List α) : List α :=
  l.drop (l.length - n)

/-- JavaScript `x || 0` applied to `networkData?.download`: `undefined`
(absent network object) and the falsy number `0` both collapse to `0`. -/
def jsNumOrZero : Option ℚ → ℚ
  | none => 0
  | some q => if q = 0 then 0 else q

/-- The history point built inside `updateNetworkHistory`'s `setNetworkHistory`
callback: `{time, download: networkData?.download || 0,
upload: networkData?.upload || 0}`. -/
def mkHistoryEntry (time : String) (networkData : Option NetworkData) :
    NetworkHistoryEntry :=
  { time := time
    download := jsNumOrZero (networkData.map NetworkData.download)
    upload := jsNumOrZero (networkData.map NetworkData.upload) }

/-- Embedding of `updateNetworkHistory` in `cluster/page.tsx`: append the new
point to `prev[serverIp] || []` and keep `slice(-30)`; other keys are
unchanged. The wall-clock `time` string is passed as a parameter. -/
def updateNetworkHistory (serverIp : String) (networkData : Option NetworkData)
    (time : String) (prev : NetworkHistory) : NetworkHistory :=
  fun ip =>
    if ip = serverIp then
      sliceLast 30 (prev serverIp ++ [mkHistoryEntry time networkData])
    else prev ip

/-- Embedding of `cleanupNetworkHistory` in `cluster/page.tsx`: every key
whose history exceeds 30 entries is trimmed with `slice(-30)`; a key at or
under 30 entries (including absent keys) is left untouched. -/
def cleanupNetworkHistory (prev : NetworkHistory) : NetworkHistory :=
  fun serverIp =>
    if 30 < (prev serverIp).length then sliceLast 30 (prev serverIp)
    else prev serverIp

/-- Outcome of one host's `fetch` in `fetchServerData`, as distinguished by
the control flow of the `try` block: a 2xx response with a JSON body, a
non-ok response, the 5000 ms `AbortController` timeout firing, a
transport-level failure (DNS, connection refused, TLS), or `response.json()`
throwing on a malformed body. The last three all raise inside the `try`. -/
inductive FetchOutcome where
  | success (payload : ServerData)
  | badStatus
  | timeout
  | transportError
  | malformedJson
deriving DecidableEq

/-- The `ServerData` value `fetchServerData` stores for a host with a given
outcome: the parsed payload itself when `response.ok`, the literal
`{error: 'Failed to fetch'}` on a non-ok status, and the literal
`{error: 'Connection failed'}` for anything the `catch` receives. -/
def hostStatus : FetchOutcome → ServerData
  | .success payload => payload
  | .badStatus => { error := some "Failed to fetch" }
  | .timeout => { error := some "Connection failed" }
  | .transportError => { error := some "Connection failed" }
  | .malformedJson => { error := some "Connection failed" }

/-- One iteration of the `for (const server of servers)` loop in
`fetchServerData`: store the host's status in `newData`, and on success also
run `updateNetworkHistory(server.ip, serverData.network)`. -/
def processHost (server : Server) (outcome : FetchOutcome) (time : String)
    (d : ServersData) (h : NetworkHistory) : ServersData × NetworkHistory :=
  match outcome with
  | .success payload =>
      (setEntry d server.ip payload,
        updateNetworkHistory server.ip payload.network time h)
  | o => (setEntry d server.ip (hostStatus o), h)

/-- Embedding of one round of `fetchServerData`: the loop walks the server
list in order, starting from the empty `newData` object, threading the
network-history map; the final pair is what `setServersData` publishes
together with the updated history. `outcomes` assigns each host its fetch
outcome for this round. -/
def fetchServerData (srvs : List Server) (outcomes : Server → FetchOutcome)
    (time : String) (h : NetworkHistory) : ServersData × NetworkHistory :=
  srvs.foldl
    (fun acc server => processHost server (outcomes server) time acc.1 acc.2)
    (emptyData, h)

/-- JavaScript truthiness of an optional numeric property, as used by
`temperature.cpu ? ... : ...`: `undefined` and `0` are falsy. -/
def jsNumTruthy : Option ℚ → Bool
  | none => false
  | some q => if q = 0 then false else true

/-- Template literal `` `${v}°C` `` for an optional numeric sensor value. -/
def degreeString : Option ℚ → String
  | none => "undefined°C"
  | some q => s!"{q}°C"

/-- Embedding of `getTemperatureDisplay` in `cluster/page.tsx`. Note the
source compares `type === 'n95'` (a value no server in the list uses) and
relies on truthiness, so a reading of `0` falls through to `'N/A'`. -/
def getTemperatureDisplay (temperature : Option Temperature) (type : String) :
    Option String :=
  match temperature with
  | none => none
  | some t =>
    if type = "n95" then
      some (if jsNumTruthy t.cpu then degreeString t.cpu else "N/A")
    else
      if jsNumTruthy t.cpu then some (degreeString t.cpu)
      else if jsNumTruthy t.rp1 then some (degreeString t.rp1)
      else if jsNumTruthy t.ssd then some (degreeString t.ssd)
      else some "N/A"

/-- Embedding of `getFanSpeed` in `cluster/page.tsx`: the first fan with a
strictly positive RPM is displayed; an all-zero fan block yields `null`,
exactly like an absent one. -/
def getFanSpeed (fan : Option Fan) : Option String :=
  match fan with
  | none => none
  | some ⟨c, c1, c2⟩ =>
    if c > 0 then some s!"{c}RPM"
    else if c1 > 0 then some s!"{c1}RPM"
    else if c2 > 0 then some s!"{c2}RPM"
    else none

/-- Timing model of one host's iteration in `fetchServerData`: the `await
fetch` suspends for the host's latency, except that the 5000 ms
`setTimeout(() => controller.abort(), 5000)` aborts the request, so the
iteration occupies `min latencyMs 5000` milliseconds. -/
def hostElapsed (latencyMs : Nat) : Nat :=
  min latencyMs 5000

/-- Timing model of a whole round of `fetchServerData`: the loop body
`await`s each host's fetch to settle before the next iteration starts, so
the round's duration is the sum of the per-host elapsed times. -/
def roundDuration (srvs : List Server) (latencyMs : Server → Nat) : Nat :=
  (srvs.map fun s => hostElapsed (latencyMs s)).sum

/-- A sequence of calls to `updateNetworkHistory` for one host, replayed in
order on a history map: each element carries the wall-clock string and the
optional `network` block of that cycle's payload. -/
def runAppends (serverIp : String)
    (appends : List (String × Option NetworkData)) (h : NetworkHistory) :
    NetworkHistory :=
  appends.foldl (fun acc a => updateNetworkHistory serverIp a.2 a.1 acc) h

/-- The first host of the compiled-in list. -/
def srvA : Server := ⟨"RuthServer", "ruthcloud.xyz", "intel"⟩

/-- The second host of the compiled-in list. -/
def srvB : Server := ⟨"RuthPiMaster", "cluster0.ruthcloud.xyz", "rpi"⟩

/-- A parsed payload whose `cpu.usage` leaf carries more than two decimal
places, as a 2xx body may. -/
def c1Payload : ServerData := { cpu := some (12345 / 10000, 4) }

/-- Outcome assignment of the spec's two-host scenario: the first host
answers HTTP 500, every other host's connection is refused. -/
def c2Outcomes : Server → FetchOutcome := fun s =>
  if s.ip = "ruthcloud.xyz" then .badStatus else .transportError

/-- Latency assignment where the first host needs 12000 ms (past the
timeout) and every other host answers in 100 ms. -/
def c5Latency : Server → Nat := fun s =>
  if s.ip = "ruthcloud.xyz" then 12000 else 100

/-- A successful payload with no `network` field at all. -/
def c7Payload : ServerData := { uptime := some ⟨1, 2, 3⟩ }

/-- A history map in which one host holds 31 entries, one over capacity. -/
def c9Big : NetworkHistory := fun _ => List.replicate 31 ⟨"00:00:00", 0, 0⟩

end ClusterPage

namespace NumberFormat

/-- A payload that is well formed except that its `temperature` object is
empty: every sensor property reads as `undefined`, matching neither the x86
nor the arm field set. -/
def c6Data : ServerData :=
  { cpu := { usage := 10, cores := 4, temperature := .num 40 }
    memory := { used := 1024, total := 2048, percentage := 50 }
    disk := { used := 10, total := 100, percentage := 10 }
    network :=
      { download := 1, upload := 1, ping := 5
        errorRates := { rx := "0.00", tx := "0.00" } }
    uptime := { days := 1, hours := 2, minutes := 3 }
    temperature :=
      { cpu := .undefined, gpu := .undefined, motherboard := .undefined
        rp1 := .undefined, ssd := .undefined }
    fan := { cpu := 0, case1 := 0, case2 := 0 }
    processes := [] }

/-- A payload whose `temperature` object carries only a `cpu` reading: it
matches neither documented field set, so it is a third unknown shape. -/
def c6Unknown : ServerData :=
  { c6Data with
    temperature :=
      { cpu := .num 40, gpu := .undefined, motherboard := .undefined
        rp1 := .undefined, ssd := .undefined } }

end NumberFormat

end ServerMonitor

namespace ServerMonitor

/-- Bridge between the executable `Rat.floor` and the order-theoretic
`Int.floor` used by the floor lemmas. -/
theorem ratFloor_eq_intFloor (r : ℚ) : (r.floor : ℤ) = ⌊r⌋ :=
  (Rat.floor_def' r).trans Rat.floor_def.symm

/-- C10: the 2-decimal rounding `formatNumber` (`Number(x.toFixed(2))`) is
idempotent: applying it twice equals applying it once. -/
theorem formatNumber_idempotent (q : ℚ) :
    NumberFormat.formatNumber (NumberFormat.formatNumber q)
      = NumberFormat.formatNumber q := by
  unfold NumberFormat.formatNumber
  rw [ratFloor_eq_intFloor, ratFloor_eq_intFloor]
  have h : ((((⌊q * 100 + 1 / 2⌋ : ℤ) : ℚ) / 100) * 100 : ℚ)
      = ((⌊q * 100 + 1 / 2⌋ : ℤ) : ℚ) := by
    field_simp
  rw [h, Int.floor_int_add]
  norm_num

/-- `slice(-n)` of an array already no longer than `n` copies it whole. -/
theorem ClusterPage.sliceLast_of_length_le {α : Type} {n : Nat} {l : List α}
    (h : l.length ≤ n) : ClusterPage.sliceLast n l = l := by
  simp [ClusterPage.sliceLast, Nat.sub_eq_zero_of_le h]

/-- `slice(-n)` keeps `min (length) n` elements. -/
theorem ClusterPage.length_sliceLast {α : Type} (n : Nat) (l : List α) :
    (ClusterPage.sliceLast n l).length = min l.length n := by
  simp only [ClusterPage.sliceLast, List.length_drop]
  omega

/-- Trimming to the last `n`, appending one element and trimming again is
the same as appending and trimming once: the ring-buffer step commutes with
a pre-trim. -/
theorem ClusterPage.sliceLast_append_single {α : Type} (n : Nat) (l : List α)
    (x : α) :
    ClusterPage.sliceLast n (ClusterPage.sliceLast n l ++ [x])
      = ClusterPage.sliceLast n (l ++ [x]) := by
  by_cases h : l.length ≤ n
  · rw [ClusterPage.sliceLast_of_length_le h]
  · have hn : n < l.length := Nat.lt_of_not_le h
    have hs : (ClusterPage.sliceLast n l).length = n := by
      rw [ClusterPage.length_sliceLast]; omega
    show (ClusterPage.sliceLast n l ++ [x]).drop
        ((ClusterPage.sliceLast n l ++ [x]).length - n)
      = (l ++ [x]).drop ((l ++ [x]).length - n)
    have h1 : (ClusterPage.sliceLast n l ++ [x]).length - n = 1 := by
      simp [hs]
    have h2 : (l ++ [x]).length - n = l.length - n + 1 := by
      simp; omega
    rw [h1, h2, ← List.drop_drop]
    conv_rhs =>
      rw [List.drop_append_of_le_length (show l.length - n ≤ l.length by omega)]
    rfl

/-- Replaying appends on a host whose current history is a trimmed list
yields the trim of everything appended so far. -/
theorem ClusterPage.runAppends_eq (ip : String)
    (appends : List (String × Option ClusterPage.NetworkData)) :
    ∀ (l : List ClusterPage.NetworkHistoryEntry) (h : ClusterPage.NetworkHistory),
      h ip = ClusterPage.sliceLast 30 l →
      ClusterPage.runAppends ip appends h ip
        = ClusterPage.sliceLast 30
            (l ++ appends.map fun a => ClusterPage.mkHistoryEntry a.1 a.2) := by
  induction appends with
  | nil =>
    intro l h hl
    simpa [ClusterPage.runAppends] using hl
  | cons a as ih =>
    intro l h hl
    have hstep : ClusterPage.updateNetworkHistory ip a.2 a.1 h ip
        = ClusterPage.sliceLast 30 (l ++ [ClusterPage.mkHistoryEntry a.1 a.2]) := by
      show (if ip = ip then
          ClusterPage.sliceLast 30 (h ip ++ [ClusterPage.mkHistoryEntry a.1 a.2])
        else h ip) = _
      rw [if_pos rfl, hl, ClusterPage.sliceLast_append_single]
    have hrec := ih (l ++ [ClusterPage.mkHistoryEntry a.1 a.2])
      (ClusterPage.updateNetworkHistory ip a.2 a.1 h) hstep
    simpa [ClusterPage.runAppends, List.append_assoc] using hrec

/-- C4: for every ordered sequence of appends to one host's network history,
the stored history after replaying them from empty is exactly the most
recent `min n 30` appended points in arrival order (the `slice(-30)` suffix
of the full append sequence, so the oldest are evicted first), and it never
holds more than 30 entries. -/
theorem networkHistory_ring_buffer_bound (ip : String)
    (appends : List (String × Option ClusterPage.NetworkData)) :
    ClusterPage.runAppends ip appends ClusterPage.emptyHistory ip
      = ClusterPage.sliceLast 30
          (appends.map fun a => ClusterPage.mkHistoryEntry a.1 a.2)
    ∧ (ClusterPage.runAppends ip appends ClusterPage.emptyHistory ip).length ≤ 30 := by
  have h0 : ClusterPage.emptyHistory ip
      = ClusterPage.sliceLast 30 ([] : List ClusterPage.NetworkHistoryEntry) := rfl
  have h := ClusterPage.runAppends_eq ip appends [] ClusterPage.emptyHistory h0
  simp only [List.nil_append] at h
  refine ⟨h, ?_⟩
  rw [h, ClusterPage.length_sliceLast]
  omega

/-- C9: the prune pass is idempotent on every host's entries; a host already
at or under 30 entries is left untouched, and a host over capacity is
trimmed to exactly its most recent 30 entries. -/
theorem cleanupNetworkHistory_idempotent_noop (prev : ClusterPage.NetworkHistory)
    (ip : String) :
    ClusterPage.cleanupNetworkHistory (ClusterPage.cleanupNetworkHistory prev) ip
      = ClusterPage.cleanupNetworkHistory prev ip
    ∧ ((prev ip).length ≤ 30 → ClusterPage.cleanupNetworkHistory prev ip = prev ip)
    ∧ (30 < (prev ip).length →
        ClusterPage.cleanupNetworkHistory prev ip = ClusterPage.sliceLast 30 (prev ip)
        ∧ (ClusterPage.cleanupNetworkHistory prev ip).length = 30) := by
  by_cases h : 30 < (prev ip).length
  · have h1 : ClusterPage.cleanupNetworkHistory prev ip
        = ClusterPage.sliceLast 30 (prev ip) := by
      show (if 30 < (prev ip).length then ClusterPage.sliceLast 30 (prev ip)
        else prev ip) = _
      rw [if_pos h]
    have hlen : (ClusterPage.cleanupNetworkHistory prev ip).length = 30 := by
      rw [h1, ClusterPage.length_sliceLast]; omega
    refine ⟨?_, fun hle => absurd hle (by omega), fun _ => ⟨h1, hlen⟩⟩
    show (if 30 < (ClusterPage.cleanupNetworkHistory prev ip).length then
        ClusterPage.sliceLast 30 (ClusterPage.cleanupNetworkHistory prev ip)
      else ClusterPage.cleanupNetworkHistory prev ip) = _
    rw [if_neg (by omega)]
  · have h1 : ClusterPage.cleanupNetworkHistory prev ip = prev ip := by
      show (if 30 < (prev ip).length then ClusterPage.sliceLast 30 (prev ip)
        else prev ip) = _
      rw [if_neg h]
    refine ⟨?_, fun _ => h1, fun hgt => absurd hgt h⟩
    show (if 30 < (ClusterPage.cleanupNetworkHistory prev ip).length then
        ClusterPage.sliceLast 30 (ClusterPage.cleanupNetworkHistory prev ip)
      else ClusterPage.cleanupNetworkHistory prev ip) = _
    rw [h1, if_neg h]

/-- Concrete run of the prune properties: a 31-entry host is trimmed to 30
and pruning again changes nothing; an empty host is untouched. -/
theorem cleanupNetworkHistory_idempotent_noop_witness :
    ClusterPage.cleanupNetworkHistory
        (ClusterPage.cleanupNetworkHistory ClusterPage.c9Big) "ruthcloud.xyz"
      = ClusterPage.cleanupNetworkHistory ClusterPage.c9Big "ruthcloud.xyz"
    ∧ ClusterPage.cleanupNetworkHistory ClusterPage.emptyHistory "ruthcloud.xyz"
      = ClusterPage.emptyHistory "ruthcloud.xyz"
    ∧ ClusterPage.cleanupNetworkHistory ClusterPage.c9Big "ruthcloud.xyz"
      = ClusterPage.sliceLast 30 (ClusterPage.c9Big "ruthcloud.xyz")
    ∧ (ClusterPage.cleanupNetworkHistory ClusterPage.c9Big "ruthcloud.xyz").length
      = 30 :=
  ⟨(cleanupNetworkHistory_idempotent_noop ClusterPage.c9Big "ruthcloud.xyz").1,
   (cleanupNetworkHistory_idempotent_noop ClusterPage.emptyHistory
      "ruthcloud.xyz").2.1 (by decide),
   ((cleanupNetworkHistory_idempotent_noop ClusterPage.c9Big "ruthcloud.xyz").2.2
      (by decide)).1,
   ((cleanupNetworkHistory_idempotent_noop ClusterPage.c9Big "ruthcloud.xyz").2.2
      (by decide)).2⟩

/-- Whatever the outcome, one loop iteration stores exactly the host's
status under the host's ip. -/
theorem ClusterPage.processHost_fst (server : ClusterPage.Server)
    (o : ClusterPage.FetchOutcome) (time : String) (d : ClusterPage.ServersData)
    (h : ClusterPage.NetworkHistory) :
    (ClusterPage.processHost server o time d h).1
      = ClusterPage.setEntry d server.ip (ClusterPage.hostStatus o) := by
  cases o <;> rfl

/-- Hosts whose ip differs from every server in the remaining list keep
their entry across the rest of the loop. -/
theorem ClusterPage.fetch_fold_untouched (outcomes : ClusterPage.Server → ClusterPage.FetchOutcome)
    (time : String) :
    ∀ (srvs : List ClusterPage.Server) (d : ClusterPage.ServersData)
      (h : ClusterPage.NetworkHistory) (ip : String),
      (∀ s ∈ srvs, s.ip ≠ ip) →
      (srvs.foldl
          (fun acc server =>
            ClusterPage.processHost server (outcomes server) time acc.1 acc.2)
          (d, h)).1 ip = d ip := by
  intro srvs
  induction srvs with
  | nil => intro d h ip _; rfl
  | cons srv rest ih =>
    intro d h ip hne
    have hstep := ih
      (ClusterPage.processHost srv (outcomes srv) time d h).1
      (ClusterPage.processHost srv (outcomes srv) time d h).2 ip
      (fun s hs => hne s (List.mem_cons_of_mem _ hs))
    simp only [List.foldl_cons] at hstep ⊢
    rw [hstep, ClusterPage.processHost_fst, ClusterPage.setEntry,
      if_neg (Ne.symm (hne srv (List.mem_cons_self _ _)))]

/-- After the loop, every server of the list has its computed status in the
accumulated map, provided server ips are pairwise distinct. -/
theorem ClusterPage.fetch_fold_complete (outcomes : ClusterPage.Server → ClusterPage.FetchOutcome)
    (time : String) :
    ∀ (srvs : List ClusterPage.Server) (d : ClusterPage.ServersData)
      (h : ClusterPage.NetworkHistory) (s : ClusterPage.Server),
      (srvs.map ClusterPage.Server.ip).Nodup → s ∈ srvs →
      (srvs.foldl
          (fun acc server =>
            ClusterPage.processHost server (outcomes server) time acc.1 acc.2)
          (d, h)).1 s.ip = some (ClusterPage.hostStatus (outcomes s)) := by
  intro srvs
  induction srvs with
  | nil => intro d h s _ hs; cases hs
  | cons srv rest ih =>
    intro d h s hnd hs
    have hnd' : (rest.map ClusterPage.Server.ip).Nodup :=
      (List.nodup_cons.mp hnd).2
    have hnotin : srv.ip ∉ rest.map ClusterPage.Server.ip :=
      (List.nodup_cons.mp hnd).1
    simp only [List.foldl_cons]
    rcases List.mem_cons.mp hs with rfl | hmem
    · have huntouched := ClusterPage.fetch_fold_untouched outcomes time rest
        (ClusterPage.processHost s (outcomes s) time d h).1
        (ClusterPage.processHost s (outcomes s) time d h).2 s.ip
        (fun s' hs' hip =>
          hnotin (hip ▸ List.mem_map_of_mem ClusterPage.Server.ip hs'))
      rw [huntouched, ClusterPage.processHost_fst, ClusterPage.setEntry,
        if_pos rfl]
    · exact ih _ _ s hnd' hmem

/-- C2: one poll round returns a mapping with an entry for every host of the
list (ips being pairwise distinct): the host's parsed snapshot on success
and its error marker on any failure, so no subset of failing hosts ever
leaves a hole or aborts the round. -/
theorem fetchServerData_complete_mapping (srvs : List ClusterPage.Server)
    (outcomes : ClusterPage.Server → ClusterPage.FetchOutcome) (time : String)
    (h : ClusterPage.NetworkHistory)
    (hnd : (srvs.map ClusterPage.Server.ip).Nodup) (s : ClusterPage.Server)
    (hs : s ∈ srvs) :
    (ClusterPage.fetchServerData srvs outcomes time h).1 s.ip
      = some (ClusterPage.hostStatus (outcomes s)) :=
  ClusterPage.fetch_fold_complete outcomes time srvs ClusterPage.emptyData h s
    hnd hs

/-- Concrete two-failure round over the compiled-in list: the HTTP-500 host
gets its bad-response marker, a refused host gets its connection marker, and
both entries are present. -/
theorem fetchServerData_complete_mapping_witness :
    (ClusterPage.fetchServerData ClusterPage.servers ClusterPage.c2Outcomes
        "12:00:00" ClusterPage.emptyHistory).1 "ruthcloud.xyz"
      = some { error := some "Failed to fetch" }
    ∧ (ClusterPage.fetchServerData ClusterPage.servers ClusterPage.c2Outcomes
        "12:00:00" ClusterPage.emptyHistory).1 "cluster0.ruthcloud.xyz"
      = some { error := some "Connection failed" } := by
  have h1 := fetchServerData_complete_mapping ClusterPage.servers
    ClusterPage.c2Outcomes "12:00:00" ClusterPage.emptyHistory (by decide)
    ClusterPage.srvA (by decide)
  have h2 := fetchServerData_complete_mapping ClusterPage.servers
    ClusterPage.c2Outcomes "12:00:00" ClusterPage.emptyHistory (by decide)
    ClusterPage.srvB (by decide)
  exact ⟨h1, h2⟩

/-- Binding a thrown `Except` error short-circuits. -/
theorem except_error_bind {ε α β : Type} (e : ε) (f : α → Except ε β) :
    (Except.error e >>= f) = Except.error e := rfl

/-- Binding a successful `Except` value applies the continuation. -/
theorem except_ok_bind {ε α β : Type} (a : α) (f : α → Except ε β) :
    (Except.ok a >>= f) = f a := rfl

/-- The only error `formatTemperature` ever throws is the `TypeError` of
calling `toFixed` on a value that is not a number. -/
theorem NumberFormat.formatTemperature_error_eq (x : NumberFormat.JsVal)
    (e : String) (h : NumberFormat.formatTemperature x = .error e) :
    e = "TypeError" := by
  cases x with
  | num q => exact absurd h (by simp [NumberFormat.formatTemperature])
  | str s =>
    simp only [NumberFormat.formatTemperature] at h
    split at h
    · exact absurd h (by simp)
    · simp only [Except.error.injEq] at h
      exact h.symm
  | null =>
    simp only [NumberFormat.formatTemperature, Except.error.injEq] at h
    exact h.symm
  | undefined =>
    simp only [NumberFormat.formatTemperature, Except.error.injEq] at h
    exact h.symm

/-- When the `cpu` sensor property is absent, both variants start by calling
`formatTemperature` on `undefined`, which throws. -/
theorem NumberFormat.formatTemperatureVariant_undefined_cpu
    (t : NumberFormat.TemperatureObj)
    (hc : t.cpu = NumberFormat.JsVal.undefined) :
    NumberFormat.formatTemperatureVariant t = .error "TypeError" := by
  have hcpu : NumberFormat.formatTemperature t.cpu = .error "TypeError" := by
    rw [hc]; rfl
  unfold NumberFormat.formatTemperatureVariant
  by_cases hx : NumberFormat.isX86TemperatureInfo t
  · rw [if_pos hx, hcpu, except_error_bind]
  · rw [if_neg hx, hcpu, except_error_bind]

/-- C6 amended: on a payload whose temperature object has no `cpu` property
(in particular on any shape where that field is absent), the normalizer does
not propagate the absent sensor as missing — it throws a `TypeError`, so
`formatServerData` crashes instead of producing a value. -/
theorem formatServerData_crashes_on_absent_cpu (data : NumberFormat.ServerData)
    (hc : data.temperature.cpu = NumberFormat.JsVal.undefined) :
    NumberFormat.formatServerData data = .error "TypeError" := by
  unfold NumberFormat.formatServerData
  cases h1 : NumberFormat.formatTemperature data.cpu.temperature with
  | error e =>
    have he := NumberFormat.formatTemperature_error_eq _ _ h1
    rw [except_error_bind, he]
  | ok v =>
    rw [except_ok_bind,
      NumberFormat.formatTemperatureVariant_undefined_cpu data.temperature hc,
      except_error_bind]

/-- Concrete crash: the all-`undefined` (empty) temperature object makes the
normalizer throw. -/
theorem formatServerData_crashes_on_absent_cpu_witness :
    NumberFormat.formatServerData NumberFormat.c6Data = .error "TypeError" :=
  formatServerData_crashes_on_absent_cpu NumberFormat.c6Data rfl

/-- C6 counterexample: a payload whose temperature object matches neither
the x86 nor the arm field set (it carries only `cpu`) makes
`formatServerData` crash with a `TypeError` instead of propagating the
absent sensors as missing, refuting the no-crash claim. -/
theorem formatServerData_unknown_shape_crashes_cex :
    NumberFormat.isX86TemperatureInfo NumberFormat.c6Unknown.temperature = false
    ∧ NumberFormat.c6Unknown.temperature.rp1 = NumberFormat.JsVal.undefined
    ∧ NumberFormat.formatServerData NumberFormat.c6Unknown = .error "TypeError" :=
  ⟨rfl, rfl, rfl⟩

/-- C1 amended: on a 2xx response the loop stores the parsed payload itself
as the host's status — `formatServerData` is never invoked on the cluster
page's fetch path, so whatever numeric leaves the payload carries reach the
status map unrounded. -/
theorem success_stores_raw_payload (server : ClusterPage.Server)
    (payload : ClusterPage.ServerData) (time : String)
    (d : ClusterPage.ServersData) (h : ClusterPage.NetworkHistory) :
    (ClusterPage.processHost server (.success payload) time d h).1 server.ip
      = some payload := by
  show (if server.ip = server.ip then some payload else d server.ip)
    = some payload
  rw [if_pos rfl]

/-- C1 counterexample: a successful poll whose body carries `cpu.usage =
1.2345` stores that very payload, and `1.2345` is not a number rounded to
two decimal places (`formatNumber` would change it), so an unrounded
numeric leaf is exactly what the presentation layer reads. -/
theorem storedPayloadUnrounded_cex :
    (ClusterPage.processHost ClusterPage.srvA (.success ClusterPage.c1Payload)
        "12:00:00" ClusterPage.emptyData ClusterPage.emptyHistory).1
        ClusterPage.srvA.ip
      = some ClusterPage.c1Payload
    ∧ ClusterPage.c1Payload.cpu = some (12345 / 10000, 4)
    ∧ NumberFormat.formatNumber (12345 / 10000) ≠ (12345 / 10000 : ℚ) := by
  refine ⟨rfl, rfl, ?_⟩
  unfold NumberFormat.formatNumber
  rw [ratFloor_eq_intFloor]
  have h : ⌊(12345 / 10000 * 100 + 1 / 2 : ℚ)⌋ = 123 := by
    norm_num [Int.floor_eq_iff]
  rw [h]
  norm_num

/-- C3 counterexample: a timed-out host and an unreachable host store the
very same error marker, so the stored markers do not distinguish the
claim's three kinds. -/
theorem timeout_transport_marker_collision :
    ClusterPage.hostStatus .timeout = ClusterPage.hostStatus .transportError
    ∧ ClusterPage.hostStatus .timeout
      = { error := some "Connection failed" } :=
  ⟨rfl, rfl⟩

/-- C3 amended: the code produces exactly two distinguishable marker kinds:
a non-ok HTTP response stores `{error: 'Failed to fetch'}`, while timeout,
transport failure and malformed JSON all store the identical
`{error: 'Connection failed'}` marker. -/
theorem error_marker_two_kinds :
    ClusterPage.hostStatus .timeout = { error := some "Connection failed" }
    ∧ ClusterPage.hostStatus .transportError
      = { error := some "Connection failed" }
    ∧ ClusterPage.hostStatus .malformedJson
      = { error := some "Connection failed" }
    ∧ ClusterPage.hostStatus .badStatus = { error := some "Failed to fetch" }
    ∧ ClusterPage.hostStatus .badStatus ≠ ClusterPage.hostStatus .timeout :=
  ⟨rfl, rfl, rfl, rfl, by decide⟩

/-- C5 counterexample: with the first host needing 12000 ms (aborted at the
5000 ms timeout) and the second answering in 100 ms, the sequential loop
takes 5100 ms — strictly more than the claimed bound
`max (timeout, latency) = 5000 ms`. -/
theorem sequential_round_exceeds_max_cex :
    ClusterPage.roundDuration [ClusterPage.srvA, ClusterPage.srvB]
        ClusterPage.c5Latency = 5100
    ∧ max (ClusterPage.hostElapsed (ClusterPage.c5Latency ClusterPage.srvA))
        (ClusterPage.hostElapsed (ClusterPage.c5Latency ClusterPage.srvB))
      = 5000
    ∧ 5000 < ClusterPage.roundDuration [ClusterPage.srvA, ClusterPage.srvB]
        ClusterPage.c5Latency := by
  refine ⟨by decide, by decide, by decide⟩

/-- C5 amended: the per-host fetches are awaited one after another, so the
round's duration is the sum of the per-host elapsed times (each capped at
the 5000 ms timeout); in particular every host's own elapsed time is a
lower bound on the whole round, so a slow host delays the hosts after it. -/
theorem round_duration_sum_lower_bound (srvs : List ClusterPage.Server)
    (latencyMs : ClusterPage.Server → Nat) (s : ClusterPage.Server)
    (hs : s ∈ srvs) :
    ClusterPage.hostElapsed (latencyMs s)
      ≤ ClusterPage.roundDuration srvs latencyMs := by
  unfold ClusterPage.roundDuration
  exact List.single_le_sum (fun x _ => Nat.zero_le x) _
    (List.mem_map_of_mem _ hs)

/-- Concrete instance of the sequential lower bound: even the fast second
host's 100 ms are part of the round's total. -/
theorem round_duration_sum_lower_bound_witness :
    ClusterPage.hostElapsed (ClusterPage.c5Latency ClusterPage.srvB)
      ≤ ClusterPage.roundDuration [ClusterPage.srvA, ClusterPage.srvB]
          ClusterPage.c5Latency :=
  round_duration_sum_lower_bound [ClusterPage.srvA, ClusterPage.srvB]
    ClusterPage.c5Latency ClusterPage.srvB (by decide)

/-- C7 amended: every successful poll appends exactly one point to the
host's ring buffer, whether or not the payload carries a `network` block;
when the block is absent the appended point is the zero-valued
`{time, download: 0, upload: 0}` rather than being omitted. -/
theorem success_always_appends_point (server : ClusterPage.Server)
    (payload : ClusterPage.ServerData) (time : String)
    (d : ClusterPage.ServersData) (h : ClusterPage.NetworkHistory) :
    (ClusterPage.processHost server (.success payload) time d h).2 server.ip
      = ClusterPage.sliceLast 30
          (h server.ip ++ [ClusterPage.mkHistoryEntry time payload.network])
    ∧ ClusterPage.mkHistoryEntry time none
      = { time := time, download := 0, upload := 0 } := by
  constructor
  · show (if server.ip = server.ip then
        ClusterPage.sliceLast 30
          (h server.ip ++ [ClusterPage.mkHistoryEntry time payload.network])
      else h server.ip) = _
    rw [if_pos rfl]
  · rfl

/-- C7 counterexample: a successful payload with no `network` field still
appends a point — the zero-valued one — to the host's history, refuting
the claim that nothing is appended in that case. -/
theorem absent_network_appends_zero_point_cex :
    ClusterPage.c7Payload.network = none
    ∧ (ClusterPage.processHost ClusterPage.srvA
        (.success ClusterPage.c7Payload) "09:00:00" ClusterPage.emptyData
        ClusterPage.emptyHistory).2 ClusterPage.srvA.ip
      = [{ time := "09:00:00", download := 0, upload := 0 }] :=
  ⟨rfl, rfl⟩

/-- C8 amended: zero readings are conflated with missing values along the
whole presentation path: a cpu temperature of 0 renders exactly as an
absent sensor does, an all-zero fan block renders nothing exactly as an
absent fan does, and an absent network block produces the same zero-valued
history entry as genuine zero throughput. -/
theorem zero_readings_conflated (rp ssd : Option ℚ) (ty time : String)
    (ping : ℚ) (rates : ClusterPage.ErrorRates) :
    ClusterPage.getTemperatureDisplay (some ⟨some 0, rp, ssd⟩) ty
      = ClusterPage.getTemperatureDisplay (some ⟨none, rp, ssd⟩) ty
    ∧ ClusterPage.getFanSpeed (some ⟨0, 0, 0⟩) = ClusterPage.getFanSpeed none
    ∧ ClusterPage.mkHistoryEntry time (some ⟨ping, 0, 0, rates⟩)
      = ClusterPage.mkHistoryEntry time none := by
  refine ⟨?_, ?_, ?_⟩
  · simp [ClusterPage.getTemperatureDisplay, ClusterPage.jsNumTruthy]
  · simp [ClusterPage.getFanSpeed]
  · simp [ClusterPage.mkHistoryEntry, ClusterPage.jsNumOrZero]

/-- C8 counterexample: a real cpu temperature reading of 0 displays as
`'N/A'` on both branches, an all-zero fan block displays nothing, and a
zero-throughput network block is indistinguishable in the history from an
absent one. -/
theorem zero_conflated_with_missing_cex :
    ClusterPage.getTemperatureDisplay (some ⟨some 0, none, none⟩) "n95"
      = some "N/A"
    ∧ ClusterPage.getTemperatureDisplay (some ⟨some 0, none, none⟩) "rpi"
      = some "N/A"
    ∧ ClusterPage.getFanSpeed (some ⟨0, 0, 0⟩) = none
    ∧ ClusterPage.mkHistoryEntry "10:00:00" (some ⟨1, 0, 0, ⟨"0.00", "0.00"⟩⟩)
      = ClusterPage.mkHistoryEntry "10:00:00" none :=
  ⟨rfl, rfl, rfl, rfl⟩

end ServerMonitor
